import Mathlib

/-!
Verification of the RAII scope-guard layer of Source/ImGui/Public/ImGuiSugar.h.

The header defines one template struct, ImGuiSugar::BooleanGuard, two small
adapter functions (ImGuiSugar::PopStyleColor, ImGuiSugar::PopStyleVar), one
conditional opening call (ImGuiSugar::BeginTooltip), and a family of macros
that expand to a guard declared in the init-statement of an if.  The guard is
embedded as a structure, member functions as Lean functions, and the effect of
a macro expansion as the list of events it emits; the end callback of C++ type
void(*)() is modelled by an abstract value identifying the call it performs.
-/

namespace ImGuiSugar

/-- Events emitted by one expansion of a scoped macro: the opening call
carrying the caller arguments, the closing call performed by the guard
destructor, and the statements of the user block. -/
inductive Event (α : Type) where
  | openCall (args : α)
  | closeCall
  | bodyStmt (n : Nat)
  deriving DecidableEq, Repr

/-- Recognizes the closing call among emitted events. -/
def Event.isClose {α : Type} : Event α → Bool
  | .closeCall => true
  | _ => false

/-- Recognizes the opening call among emitted events. -/
def Event.isOpen {α : Type} : Event α → Bool
  | .openCall _ => true
  | _ => false

/-- Shallow embedding of ImGuiSugar::BooleanGuard (ImGuiSugar.h lines 36-57).
AlwaysCallEnd is the template parameter; m_state and m_end are the two const
data members set by the constructor (lines 39-40).  The ScopeEndCallback is
modelled abstractly: a value of type ε identifying the call it performs. -/
structure BooleanGuard (AlwaysCallEnd : Bool) (ε : Type) where
  m_state : Bool
  m_end : ε
  deriving DecidableEq, Repr

/-- Destructor (lines 47-50): if (AlwaysCallEnd || m_state) then m_end() is
invoked.  The result is the list of invocations of the stored end callback. -/
def BooleanGuard.destruct {a : Bool} {ε : Type} (g : BooleanGuard a ε) : List ε :=
  if a || g.m_state then [g.m_end] else []

/-- The implicit conversion operator bool (line 52): a const member returning
m_state.  Modelled in state-passing style, returning the guard as well, to
record that the call leaves the guard unchanged. -/
def BooleanGuard.operatorBool {a : Bool} {ε : Type} (g : BooleanGuard a ε) :
    Bool × BooleanGuard a ε :=
  (g.m_state, g)

/-- Copy constructor (line 42): deleted in the source, so no such operation is
available; modelled as none. -/
def BooleanGuard.copyConstructor (a : Bool) (ε : Type) :
    Option (BooleanGuard a ε → BooleanGuard a ε) := none

/-- Move constructor (line 43): deleted in the source; modelled as none. -/
def BooleanGuard.moveConstructor (a : Bool) (ε : Type) :
    Option (BooleanGuard a ε → BooleanGuard a ε) := none

/-- Copy assignment (line 44): deleted in the source; modelled as none. -/
def BooleanGuard.copyAssignment (a : Bool) (ε : Type) :
    Option (BooleanGuard a ε → BooleanGuard a ε → BooleanGuard a ε) := none

/-- Move assignment (line 45): deleted in the source; modelled as none. -/
def BooleanGuard.moveAssignment (a : Bool) (ε : Type) :
    Option (BooleanGuard a ε → BooleanGuard a ε → BooleanGuard a ε) := none

/-- A C++ exception escaping a member function, for the noexcept model. -/
inductive CppException where
  | exceptionThrown
  deriving DecidableEq, Repr

/-- Constructor (lines 39-40), declared noexcept; its body only copies a bool
and a function pointer, so it cannot fail: the model always returns ok. -/
def BooleanGuard.constructE (a : Bool) (ε : Type) (state : Bool) (endCb : ε) :
    Except CppException (BooleanGuard a ε) :=
  .ok ⟨state, endCb⟩

/-- operator bool (line 52), declared noexcept; returns the stored bool and
cannot fail. -/
def BooleanGuard.operatorBoolE {a : Bool} {ε : Type} (g : BooleanGuard a ε) :
    Except CppException Bool :=
  .ok g.m_state

/-- Destructor (lines 47-50), declared noexcept; the modelled end callbacks
are plain calls into the GUI library, so destruction cannot fail. -/
def BooleanGuard.destructE {a : Bool} {ε : Type} (g : BooleanGuard a ε) :
    Except CppException (List ε) :=
  .ok g.destruct

/-- Lifecycle phases of the guard as a C++ automatic object: it is created at
its declaration and destroyed at scope exit. -/
inductive GuardPhase where
  | constructed
  | destroyed
  deriving DecidableEq, Repr

/-- The lifecycle transition of an automatic guard object: a constructed guard
is destroyed at block exit, and a destroyed guard has no further transition. -/
def guardLifecycleStep : GuardPhase → Option GuardPhase
  | .constructed => some .destroyed
  | .destroyed => none

/-- One expansion of IMGUI_SUGAR_SCOPED_BOOL (lines 99-103): the guard is
constructed in the init-statement of an if from the bool returned by the
BEGIN call and the END callback; the user block runs iff operator bool yields
true; the destructor runs when control leaves the if statement.  args are the
caller arguments forwarded to BEGIN, bodyFull the statements of the user
block, and k the number of body statements executed before the block is left
(k at least the length means a normal exit, a smaller k an early exit; the
destructor runs in either case, which is the C++ guarantee for automatic
objects). -/
def runScopedBool (α : Type) (always : Bool) (args : α) (beginResult : Bool)
    (bodyFull : List Nat) (k : Nat) : List (Event α) :=
  let g : BooleanGuard always (Event α) := ⟨beginResult, Event.closeCall⟩
  Event.openCall args ::
    ((if (g.operatorBool).1 then (bodyFull.take k).map Event.bodyStmt else []) ++
      ((g.operatorBool).2).destruct)

/-- IMGUI_SUGAR_ES and IMGUI_SUGAR_ES_0 (lines 81-82): a lambda calls the
void function with the given arguments and then returns true.  fnCall is the
effect of the wrapped void call. -/
def IMGUI_SUGAR_ES (α : Type) (fnCall : α) : Bool × α := (true, fnCall)

/-- One expansion of IMGUI_SUGAR_SCOPED_VOID_N or IMGUI_SUGAR_SCOPED_VOID_0
(lines 105-109): a BooleanGuard with template argument true, constructed from
the result of IMGUI_SUGAR_ES applied to the BEGIN call. -/
def runScopedVoid (α : Type) (args : α) (bodyFull : List Nat) (k : Nat) :
    List (Event α) :=
  runScopedBool α true args (IMGUI_SUGAR_ES α args).1 bodyFull k

/-- One expansion of IMGUI_SUGAR_PARENT_SCOPED_VOID_N (lines 111-112): the
guard is a plain declaration in the enclosing block, so its destructor runs
after the remaining statements rest of that block. -/
def runParentScopedVoid (α : Type) (args : α) (rest : List Nat) : List (Event α) :=
  let g : BooleanGuard true (Event α) := ⟨(IMGUI_SUGAR_ES α args).1, Event.closeCall⟩
  Event.openCall args :: (rest.map Event.bodyStmt ++ g.destruct)

/-- Configuration of one bool-returning scoped macro (lines 121-158): the
BEGIN function name, the END function name, and the ALWAYS template argument
passed to BooleanGuard. -/
structure ScopedBoolMacro where
  beginName : String
  endName : String
  always : Bool
  deriving DecidableEq, Repr

def with_Window : ScopedBoolMacro := ⟨"ImGui::Begin", "ImGui::End", true⟩

def with_Child : ScopedBoolMacro := ⟨"ImGui::BeginChild", "ImGui::EndChild", true⟩

def with_ChildFrame : ScopedBoolMacro := ⟨"ImGui::BeginChildFrame", "ImGui::EndChildFrame", true⟩

def with_Combo : ScopedBoolMacro := ⟨"ImGui::BeginCombo", "ImGui::EndCombo", false⟩

def with_ListBox : ScopedBoolMacro := ⟨"ImGui::BeginListBox", "ImGui::EndListBox", false⟩

def with_Menu : ScopedBoolMacro := ⟨"ImGui::BeginMenu", "ImGui::EndMenu", false⟩

def with_Popup : ScopedBoolMacro := ⟨"ImGui::BeginPopup", "ImGui::EndPopup", false⟩

def with_PopupModal : ScopedBoolMacro := ⟨"ImGui::BeginPopupModal", "ImGui::EndPopup", false⟩

def with_PopupContextItem : ScopedBoolMacro := ⟨"ImGui::BeginPopupContextItem", "ImGui::EndPopup", false⟩

def with_PopupContextWindow : ScopedBoolMacro := ⟨"ImGui::BeginPopupContextWindow", "ImGui::EndPopup", false⟩

def with_PopupContextVoid : ScopedBoolMacro := ⟨"ImGui::BeginPopupContextVoid", "ImGui::EndPopup", false⟩

def with_Table : ScopedBoolMacro := ⟨"ImGui::BeginTable", "ImGui::EndTable", false⟩

def with_TabBar : ScopedBoolMacro := ⟨"ImGui::BeginTabBar", "ImGui::EndTabBar", false⟩

def with_TabItem : ScopedBoolMacro := ⟨"ImGui::BeginTabItem", "ImGui::EndTabItem", false⟩

def with_DragDropSource : ScopedBoolMacro := ⟨"ImGui::BeginDragDropSource", "ImGui::EndDragDropSource", false⟩

def with_TreeNode : ScopedBoolMacro := ⟨"ImGui::TreeNode", "ImGui::TreePop", false⟩

def with_TreeNodeV : ScopedBoolMacro := ⟨"ImGui::TreeNodeV", "ImGui::TreePop", false⟩

def with_TreeNodeEx : ScopedBoolMacro := ⟨"ImGui::TreeNodeEx", "ImGui::TreePop", false⟩

def with_TreeNodeExV : ScopedBoolMacro := ⟨"ImGui::TreeNodeExV", "ImGui::TreePop", false⟩

def with_TooltipOnHover : ScopedBoolMacro := ⟨"ImGuiSugar::BeginTooltip", "ImGui::EndTooltip", false⟩

def with_DragDropTarget : ScopedBoolMacro := ⟨"ImGui::BeginDragDropTarget", "ImGui::EndDragDropTarget", false⟩

def with_MainMenuBar : ScopedBoolMacro := ⟨"ImGui::BeginMainMenuBar", "ImGui::EndMainMenuBar", false⟩

def with_MenuBar : ScopedBoolMacro := ⟨"ImGui::BeginMenuBar", "ImGui::EndMenuBar", false⟩

/-- Calls into the underlying library made by the tooltip helper. -/
inductive TooltipCall where
  | isItemHovered
  | beginTooltipCall
  deriving DecidableEq, Repr

/-- ImGuiSugar::BeginTooltip (lines 64-72): queries ImGui::IsItemHovered and,
only when it reports true, calls ImGui::BeginTooltip and returns true; the
argument hovered is the value reported by ImGui::IsItemHovered.  The result
is the returned bool together with the calls made into the library. -/
def BeginTooltip (hovered : Bool) : Bool × List TooltipCall :=
  if hovered then (true, [.isItemHovered, .beginTooltipCall])
  else (false, [.isItemHovered])

/-- Spec model for claim C4: the spec describes every opening call as a direct
pass-through invoked with the caller arguments unchanged and with no
additional logic inserted by the layer; for with_TooltipOnHover that would be
exactly one call to the underlying ImGui::BeginTooltip, whatever the hover
state, and a true result as for every void opening call. -/
def BeginTooltipSpecPassThrough (_hovered : Bool) : Bool × List TooltipCall :=
  (true, [.beginTooltipCall])

/-- Configuration of one void scoped macro (lines 160-198): the PUSH or BEGIN
function name, the POP or END function name, and whether the macro is self
scoped (with_ family, lines 160-176 and 196-198, expanding to an if with its
own block) or parent scoped (set_ family, lines 180-193, a plain declaration
in the enclosing block).  Every one of them constructs BooleanGuard with
template argument true from the IMGUI_SUGAR_ES result. -/
structure ScopedVoidMacro where
  beginName : String
  endName : String
  selfScoped : Bool
  deriving DecidableEq, Repr

def with_Group : ScopedVoidMacro := ⟨"ImGui::BeginGroup", "ImGui::EndGroup", true⟩

def with_Tooltip : ScopedVoidMacro := ⟨"ImGui::BeginTooltip", "ImGui::EndTooltip", true⟩

def with_Font : ScopedVoidMacro := ⟨"ImGui::PushFont", "ImGui::PopFont", true⟩

def with_ButtonRepeat : ScopedVoidMacro := ⟨"ImGui::PushButtonRepeat", "ImGui::PopButtonRepeat", true⟩

def with_ItemWidth : ScopedVoidMacro := ⟨"ImGui::PushItemWidth", "ImGui::PopItemWidth", true⟩

def with_TextWrapPos : ScopedVoidMacro := ⟨"ImGui::PushTextWrapPos", "ImGui::PopTextWrapPos", true⟩

def with_ID : ScopedVoidMacro := ⟨"ImGui::PushID", "ImGui::PopID", true⟩

def with_ClipRect : ScopedVoidMacro := ⟨"ImGui::PushClipRect", "ImGui::PopClipRect", true⟩

def with_TextureID : ScopedVoidMacro := ⟨"ImGui::PushTextureID", "ImGui::PopTextureID", true⟩

def with_StyleColor : ScopedVoidMacro := ⟨"ImGui::PushStyleColor", "ImGuiSugar::PopStyleColor", true⟩

def with_StyleVar : ScopedVoidMacro := ⟨"ImGui::PushStyleVar", "ImGuiSugar::PopStyleVar", true⟩

def set_Font : ScopedVoidMacro := ⟨"ImGui::PushFont", "ImGui::PopFont", false⟩

def set_ButtonRepeat : ScopedVoidMacro := ⟨"ImGui::PushButtonRepeat", "ImGui::PopButtonRepeat", false⟩

def set_ItemWidth : ScopedVoidMacro := ⟨"ImGui::PushItemWidth", "ImGui::PopItemWidth", false⟩

def set_TextWrapPos : ScopedVoidMacro := ⟨"ImGui::PushTextWrapPos", "ImGui::PopTextWrapPos", false⟩

def set_ID : ScopedVoidMacro := ⟨"ImGui::PushID", "ImGui::PopID", false⟩

def set_ClipRect : ScopedVoidMacro := ⟨"ImGui::PushClipRect", "ImGui::PopClipRect", false⟩

def set_TextureID : ScopedVoidMacro := ⟨"ImGui::PushTextureID", "ImGui::PopTextureID", false⟩

def set_StyleColor : ScopedVoidMacro := ⟨"ImGui::PushStyleColor", "ImGuiSugar::PopStyleColor", false⟩

def set_StyleVar : ScopedVoidMacro := ⟨"ImGui::PushStyleVar", "ImGuiSugar::PopStyleVar", false⟩

/-- An RGBA color; the float literals of the source are modelled as exact
rationals (0.5, 0.8, 0.7), since nothing here depends on float rounding. -/
structure ImColor4 where
  r : Rat
  g : Rat
  b : Rat
  a : Rat
  deriving DecidableEq, Repr

/-- The three style-color indices used by with_ButtonColored. -/
inductive ImGuiColIdx where
  | button
  | buttonHovered
  | buttonActive
  deriving DecidableEq, Repr

/-- Calls into the style stacks of the underlying library. -/
inductive StyleCall where
  | pushStyleColor (idx : ImGuiColIdx) (col : ImColor4)
  | popStyleColor (n : Nat)
  | popStyleVar (n : Nat)
  deriving DecidableEq, Repr

/-- ImGuiSugar::PopStyleColor (line 60): an adapter from void(*)(int) to
void(*)() that forwards the fixed count 1 to ImGui::PopStyleColor. -/
def PopStyleColor : List StyleCall := [.popStyleColor 1]

/-- ImGuiSugar::PopStyleVar (line 61): an adapter that forwards the fixed
count 1 to ImGui::PopStyleVar. -/
def PopStyleVar : List StyleCall := [.popStyleVar 1]

/-- Effect of one style call on the style-color stack: a push adds one entry,
PopStyleColor with count n removes the top n entries, and the style-var calls
act on a different stack, leaving this one unchanged. -/
def applyStyleCall (st : List (ImGuiColIdx × ImColor4)) :
    StyleCall → List (ImGuiColIdx × ImColor4)
  | .pushStyleColor idx col => (idx, col) :: st
  | .popStyleColor n => st.drop n
  | .popStyleVar _ => st

/-- Effect of a sequence of style calls on the style-color stack. -/
def applyStyleCalls (st : List (ImGuiColIdx × ImColor4)) (calls : List StyleCall) :
    List (ImGuiColIdx × ImColor4) :=
  calls.foldl applyStyleCall st

/-- The opening lambda of with_ButtonColored (lines 216-223): pushes the
Button, ButtonHovered and ButtonActive style colors with the given r, g, b
and alphas 0.5, 0.8, 0.7, then returns true. -/
def with_ButtonColored_open (r g b : Rat) : Bool × List StyleCall :=
  (true, [.pushStyleColor .button ⟨r, g, b, 1/2⟩,
          .pushStyleColor .buttonHovered ⟨r, g, b, 4/5⟩,
          .pushStyleColor .buttonActive ⟨r, g, b, 7/10⟩])

/-- The closing lambda of with_ButtonColored (lines 223-225): PopStyleColor
with count 3. -/
def with_ButtonColored_close : List StyleCall := [.popStyleColor 3]

/-- Body statements are never the closing call. -/
theorem countP_isClose_map_bodyStmt (α : Type) (l : List Nat) :
    (l.map (Event.bodyStmt : Nat → Event α)).countP Event.isClose = 0 := by
  induction l with
  | nil => rfl
  | cons x xs ih => simp [List.countP_cons, Event.isClose, ih]

/-- Body statements are never the opening call. -/
theorem countP_isOpen_map_bodyStmt (α : Type) (l : List Nat) :
    (l.map (Event.bodyStmt : Nat → Event α)).countP Event.isOpen = 0 := by
  induction l with
  | nil => rfl
  | cons x xs ih => simp [List.countP_cons, Event.isOpen, ih]

/-- C1: a BooleanGuard with template argument AlwaysCallEnd, state s and end
callback e invokes e on destruction when AlwaysCallEnd is true; otherwise it
invokes e iff s is true, and in particular not at all when both are false. -/
theorem booleanGuard_destructor_contract (a s : Bool) (ε : Type) (e : ε) :
    (a = true → (BooleanGuard.mk s e : BooleanGuard a ε).destruct = [e]) ∧
    (a = false → ((BooleanGuard.mk s e : BooleanGuard a ε).destruct = [e] ↔ s = true)) ∧
    (a = false → s = false → (BooleanGuard.mk s e : BooleanGuard a ε).destruct = []) := by
  unfold BooleanGuard.destruct
  cases a <;> cases s <;> simp

theorem booleanGuard_destructor_contract_witness :
    (BooleanGuard.mk false () : BooleanGuard true Unit).destruct = [()] ∧
    (BooleanGuard.mk true () : BooleanGuard false Unit).destruct = [()] ∧
    (BooleanGuard.mk false () : BooleanGuard false Unit).destruct = [] :=
  ⟨(booleanGuard_destructor_contract true false Unit ()).1 rfl,
   ((booleanGuard_destructor_contract false true Unit ()).2.1 rfl).mpr rfl,
   (booleanGuard_destructor_contract false false Unit ()).2.2 rfl rfl⟩

/-- C2: in every expansion of a scoped macro, the closing call is emitted
exactly as configured, whatever the body and wherever the block is exited:
exactly once when the guard always closes or the opening call returned true,
zero times otherwise; in particular every entry into the guarded block (which
happens iff the opening call returned true) closes exactly once, never zero
times and never twice. -/
theorem scoped_close_called_exactly_once (α : Type) (always : Bool) (args : α)
    (s : Bool) (bodyFull : List Nat) (k : Nat) :
    ((runScopedBool α always args s bodyFull k).countP Event.isClose =
      if always || s then 1 else 0) ∧
    (s = true → (runScopedBool α always args s bodyFull k).countP Event.isClose = 1) := by
  unfold runScopedBool BooleanGuard.operatorBool BooleanGuard.destruct
  cases always <;> cases s <;>
    simp [List.countP_append, List.countP_cons, Event.isClose,
      countP_isClose_map_bodyStmt] <;>
    · intro a ha
      rcases List.mem_map.mp (List.mem_of_mem_take ha) with ⟨n, hn, rfl⟩
      rfl

theorem scoped_close_called_exactly_once_witness :
    (runScopedBool Unit false () true [0, 1, 2] 1).countP Event.isClose = 1 :=
  (scoped_close_called_exactly_once Unit false () true [0, 1, 2] 1).2 rfl

/-- C3: the implicit bool conversion returns exactly the stored state, for
either value of the AlwaysCallEnd template argument. -/
theorem booleanGuard_bool_conversion (s : Bool) (ε : Type) (e : ε) :
    (∀ a : Bool, ((BooleanGuard.mk s e : BooleanGuard a ε).operatorBool).1 = s) ∧
    ((BooleanGuard.mk s e : BooleanGuard true ε).operatorBool).1 =
      ((BooleanGuard.mk s e : BooleanGuard false ε).operatorBool).1 :=
  ⟨fun _ => rfl, rfl⟩

/-- C5: the guard stores exactly the boolean state and the end callback given
at construction, two guards agreeing on those two fields are equal (there is
no further state), and the bool conversion leaves the guard unchanged. -/
theorem booleanGuard_state_immutable (a s : Bool) (ε : Type) (e : ε) :
    ((BooleanGuard.mk s e : BooleanGuard a ε).m_state = s) ∧
    ((BooleanGuard.mk s e : BooleanGuard a ε).m_end = e) ∧
    (∀ g : BooleanGuard a ε, (g.operatorBool).2 = g) ∧
    (∀ g h : BooleanGuard a ε, g.m_state = h.m_state → g.m_end = h.m_end → g = h) := by
  refine ⟨rfl, rfl, fun g => rfl, ?_⟩
  rintro ⟨gs, ge⟩ ⟨hs, he⟩ h1 h2
  cases h1
  cases h2
  rfl

theorem booleanGuard_state_immutable_witness :
    (BooleanGuard.mk true 0 : BooleanGuard false Nat) = BooleanGuard.mk true 0 :=
  (booleanGuard_state_immutable false true Nat 0).2.2.2
    (BooleanGuard.mk true 0) (BooleanGuard.mk true 0) rfl rfl

/-- C6: the copy constructor, move constructor, copy assignment and move
assignment of the guard are all deleted, so no operation of the embedding
produces a guard from an existing guard or assigns one guard to another. -/
theorem booleanGuard_noncopyable_nonmovable (a : Bool) (ε : Type) :
    BooleanGuard.copyConstructor a ε = none ∧
    BooleanGuard.moveConstructor a ε = none ∧
    BooleanGuard.copyAssignment a ε = none ∧
    BooleanGuard.moveAssignment a ε = none :=
  ⟨rfl, rfl, rfl, rfl⟩

/-- C7: construction, bool conversion and destruction of the guard never
fail (each is declared noexcept in the source and contains no throwing
operation), and the only lifecycle transition is from constructed to
destroyed. -/
theorem booleanGuard_noexcept_lifecycle (a s : Bool) (ε : Type) (e : ε) :
    (BooleanGuard.constructE a ε s e = .ok (BooleanGuard.mk s e)) ∧
    (∀ g : BooleanGuard a ε, g.operatorBoolE = .ok g.m_state) ∧
    (∀ g : BooleanGuard a ε, g.destructE = .ok g.destruct) ∧
    guardLifecycleStep .constructed = some .destroyed ∧
    guardLifecycleStep .destroyed = none :=
  ⟨rfl, fun _ => rfl, fun _ => rfl, rfl, rfl⟩

/-- C8: with_Window, with_Child and with_ChildFrame pass ALWAYS true (their
End, EndChild and EndChildFrame calls run even when the opening call returned
false, as the destructor conjuncts on a false-state guard show), while every
other bool-returning with_ macro passes ALWAYS false, so its closing call
runs only when the opening call returned true. -/
theorem macro_always_flags :
    with_Window.always = true ∧ with_Child.always = true ∧
    with_ChildFrame.always = true ∧
    with_Window.endName = "ImGui::End" ∧ with_Child.endName = "ImGui::EndChild" ∧
    with_ChildFrame.endName = "ImGui::EndChildFrame" ∧
    with_Combo.always = false ∧ with_ListBox.always = false ∧
    with_Menu.always = false ∧ with_Popup.always = false ∧
    with_PopupModal.always = false ∧ with_PopupContextItem.always = false ∧
    with_PopupContextWindow.always = false ∧ with_PopupContextVoid.always = false ∧
    with_Table.always = false ∧ with_TabBar.always = false ∧
    with_TabItem.always = false ∧ with_DragDropSource.always = false ∧
    with_TreeNode.always = false ∧ with_TreeNodeV.always = false ∧
    with_TreeNodeEx.always = false ∧ with_TreeNodeExV.always = false ∧
    with_TooltipOnHover.always = false ∧ with_DragDropTarget.always = false ∧
    with_MainMenuBar.always = false ∧ with_MenuBar.always = false ∧
    (BooleanGuard.mk false () : BooleanGuard with_Window.always Unit).destruct = [()] ∧
    (BooleanGuard.mk false () : BooleanGuard with_Child.always Unit).destruct = [()] ∧
    (BooleanGuard.mk false () : BooleanGuard with_ChildFrame.always Unit).destruct = [()] ∧
    (BooleanGuard.mk false () : BooleanGuard with_Combo.always Unit).destruct = [] ∧
    (BooleanGuard.mk true () : BooleanGuard with_Combo.always Unit).destruct = [()] := by
  decide

/-- C9: the expression-statement wrapper IMGUI_SUGAR_ES always returns true,
so the guard of every void scoped macro stores true, the guarded block of a
self-scoped expansion always runs, and the closing call is always emitted
exactly once, both for self-scoped and for parent-scoped expansions. -/
theorem void_macros_always_true (α : Type) (args : α) (bodyFull : List Nat)
    (k : Nat) (rest : List Nat) :
    ((IMGUI_SUGAR_ES α args).1 = true) ∧
    ((BooleanGuard.mk (IMGUI_SUGAR_ES α args).1 (Event.closeCall : Event α) :
        BooleanGuard true (Event α)).m_state = true) ∧
    (runScopedVoid α args bodyFull k =
      Event.openCall args ::
        ((bodyFull.take k).map Event.bodyStmt ++ [Event.closeCall])) ∧
    ((runScopedVoid α args bodyFull k).countP Event.isClose = 1) ∧
    (runParentScopedVoid α args rest =
      Event.openCall args :: (rest.map Event.bodyStmt ++ [Event.closeCall])) ∧
    ((runParentScopedVoid α args rest).countP Event.isClose = 1) := by
  refine ⟨rfl, rfl, rfl, ?_, rfl, ?_⟩
  all_goals
    simp [runScopedVoid, runScopedBool, runParentScopedVoid, IMGUI_SUGAR_ES,
      BooleanGuard.operatorBool, BooleanGuard.destruct, List.countP_append,
      List.countP_cons, Event.isClose, countP_isClose_map_bodyStmt] <;>
    · intro a ha
      rcases List.mem_map.mp (List.mem_of_mem_take ha) with ⟨n, hn, rfl⟩
      rfl

/-- C4 counterexample: the opening call of with_TooltipOnHover is not a
direct pass-through with no additional logic: when ImGui::IsItemHovered
reports false, ImGuiSugar::BeginTooltip makes no call at all to the
underlying ImGui::BeginTooltip and instead performs a hover query the caller
never asked for, and it returns false where a wrapped void call returns
true. -/
theorem beginTooltip_not_pass_through :
    BeginTooltip false ≠ BeginTooltipSpecPassThrough false ∧
    (BeginTooltip false).2.countP (fun c => c == TooltipCall.beginTooltipCall) = 0 ∧
    (BeginTooltipSpecPassThrough false).2.countP
      (fun c => c == TooltipCall.beginTooltipCall) = 1 ∧
    (BeginTooltip false).2.countP (fun c => c == TooltipCall.isItemHovered) = 1 ∧
    (BeginTooltipSpecPassThrough false).2.countP
      (fun c => c == TooltipCall.isItemHovered) = 0 := by
  decide

/-- C4 amended: every expansion of a generic scoped macro forwards the caller
arguments unchanged to exactly one opening call and inserts nothing of its
own beyond the configured closing call, and the PopStyleColor and PopStyleVar
adapters forward the fixed count 1 to the underlying pop functions; the
exceptions are the opening call of with_TooltipOnHover, which first queries
ImGui::IsItemHovered and invokes ImGui::BeginTooltip only when hovered, and
with_ButtonColored, whose opening call builds three style-color pushes with
fixed alpha values rather than forwarding caller arguments. -/
theorem scoped_macros_forward_args (α : Type) (always s : Bool) (args : α)
    (bodyFull : List Nat) (k : Nat) :
    ((runScopedBool α always args s bodyFull k).head? =
      some (Event.openCall args)) ∧
    ((runScopedBool α always args s bodyFull k).countP Event.isOpen = 1) ∧
    ((runScopedBool α always args s bodyFull k).countP Event.isClose =
      if always || s then 1 else 0) ∧
    PopStyleColor = [StyleCall.popStyleColor 1] ∧
    PopStyleVar = [StyleCall.popStyleVar 1] := by
  refine ⟨rfl, ?_, ?_, rfl, rfl⟩
  all_goals
    unfold runScopedBool BooleanGuard.operatorBool BooleanGuard.destruct
    cases always <;> cases s <;>
        simp [List.countP_append, List.countP_cons, Event.isOpen, Event.isClose,
          countP_isOpen_map_bodyStmt, countP_isClose_map_bodyStmt] <;>
        · intro a ha
          rcases List.mem_map.mp (List.mem_of_mem_take ha) with ⟨n, hn, rfl⟩
          rfl

/-- C10: with_ButtonColored reports true as guard state (so its block always
runs), its opening lambda pushes exactly the three style colors Button,
ButtonHovered and ButtonActive with the given r, g, b and alphas 0.5, 0.8,
0.7, and after the closing PopStyleColor with count 3 the style-color stack
is exactly what it was before. -/
theorem buttonColored_stack_balanced (r g b : Rat)
    (st : List (ImGuiColIdx × ImColor4)) :
    ((with_ButtonColored_open r g b).1 = true) ∧
    ((with_ButtonColored_open r g b).2.length = 3) ∧
    (applyStyleCalls st (with_ButtonColored_open r g b).2 =
      (.buttonActive, ⟨r, g, b, 7/10⟩) :: (.buttonHovered, ⟨r, g, b, 4/5⟩) ::
        (.button, ⟨r, g, b, 1/2⟩) :: st) ∧
    (applyStyleCalls st
      ((with_ButtonColored_open r g b).2 ++ with_ButtonColored_close) = st) :=
  ⟨rfl, rfl, rfl, rfl⟩

end ImGuiSugar
